import Mathlib

/-!
# JobSync — verification of the resume-parsing and match-scoring core

Shallow embedding of the algorithmic core of the JobSync repository
(`backend/app/services/matcher.py` and `backend/app/services/resume_parser.py`)
together with theorems settling the specification claims about it.

Machine integers are modelled as `Int`/`Nat` (Python integers are unbounded),
Python floats as `Rat` (all arithmetic in these functions is exact decimal
arithmetic at the spec level), Python `None` as `Option.none`, and code that
can raise as `Except`-valued functions.  Calls into external ML libraries
(TF-IDF vectorizer, sentence encoder, PDF extractors) are modelled as explicit
parameters carrying either the library's answer or the fact that it raised.
-/

namespace JobSync

/-! ## String helpers (Python `str.lower`, `in`, `str.title`) -/

/-- Python `str.lower()` (ASCII-adequate for the inputs in this code base). -/
def lowerStr (s : String) : String := String.mk (s.data.map Char.toLower)

/-- Substring test on character lists: does `needle` occur contiguously in the
list?  Models Python `needle in hay` for strings. -/
def subList (needle : List Char) : List Char → Bool
  | [] => needle.isEmpty
  | c :: rest => needle.isPrefixOf (c :: rest) || subList needle rest

/-- Python `needle in hay` on strings. -/
def strContains (hay needle : String) : Bool := subList needle.data hay.data

/-- Python regex `\w` word character (ASCII part). -/
def isWordChar (c : Char) : Bool := c.isAlphanum || c == '_'

/-- Word-character test on an optional character; string ends count as
non-word, as in Python's `\b`. -/
def optWord : Option Char → Bool
  | none => false
  | some c => isWordChar c

/-- Does the literal pattern `pat` match at the head of `hay`, with a `\b`
word boundary on both sides?  `prev` is the character just before the current
position (`none` at the start of the string).  A boundary holds between two
positions iff exactly one side is a word character. -/
def wordMatchAt (pat hay : List Char) (prev : Option Char) : Bool :=
  pat.isPrefixOf hay
    && (optWord prev != optWord pat.head?)
    && (optWord pat.getLast? != optWord (hay.drop pat.length).head?)

/-- Scan of `re.search(r'\b' + re.escape(pat) + r'\b', hay)`: is there a
position in `hay` where `pat` occurs surrounded by word boundaries? -/
def subWordSearch (pat : List Char) : Option Char → List Char → Bool
  | _, [] => false
  | prev, c :: rest => wordMatchAt pat (c :: rest) prev || subWordSearch pat (some c) rest

/-- Word-boundary search of a literal pattern in a string
(`re.search(r'\b' + re.escape(pat) + r'\b', hay)` in `extract_skills`). -/
def containsWord (hay pat : String) : Bool := subWordSearch pat.data none hay.data

/-- Python `str.title()` for the ASCII skill names of the taxonomy:
a letter is uppercased when it does not follow a letter, lowercased
otherwise; non-letters pass through. -/
def pyTitleGo (prevAlpha : Bool) : List Char → List Char
  | [] => []
  | c :: rest =>
      (if c.isAlpha then (if prevAlpha then c.toLower else c.toUpper) else c)
        :: pyTitleGo c.isAlpha rest

/-- Python `str.title()`. -/
def pyTitle (s : String) : String := String.mk (pyTitleGo false s.data)

/-- The whitespace characters stripped by Python `str.strip()` (ASCII part). -/
def isSpaceChar (c : Char) : Bool :=
  c == ' ' || c == '\t' || c == '\n' || c == '\r' || c == '\x0b' || c == '\x0c'

/-- Python `str.strip()`: drop whitespace from both ends. -/
def pyStrip (s : String) : String :=
  String.mk (((s.data.dropWhile isSpaceChar).reverse.dropWhile isSpaceChar).reverse)

/-! ## The year-range regex of `calculate_experience_match`

`matcher.py` line 130 reads, byte for byte,
`re.search(r'(\d+)[-\xc3\xa2\xe2\x82\xac\xe2\x80\x9c](\d+)', required_experience)`:
the UTF-8 en-dash the author intended was mangled (decoded as cp1252 and
re-encoded), so the character class holds the four characters
`-` (U+002D), `â` (U+00E2), `€` (U+20AC), `“` (U+201C) — and NOT the
en-dash U+2013. -/

/-- The characters accepted as range separators by the regex character class
on `matcher.py` line 130, exactly as the bytes on disk decode. -/
def sepChars : List Char := ['-', Char.ofNat 0xE2, Char.ofNat 0x20AC, Char.ofNat 0x201C]

/-- Numeric value of a digit run (the regex group is `\d+`, so this models
`int(match.group(i))`). -/
def digitsToNat (ds : List Char) : Nat :=
  ds.foldl (fun n c => 10 * n + (c.toNat - '0'.toNat)) 0

/-- Try to match `(\d+)[-â€“](\d+)` at the head of the character list:
a maximal digit run, a separator from `sepChars`, and a further digit run. -/
def tryRangeAt (cs : List Char) : Option (Nat × Nat) :=
  let d1 := cs.takeWhile Char.isDigit
  let r1 := cs.dropWhile Char.isDigit
  if d1.isEmpty then none
  else
    match r1 with
    | [] => none
    | sep :: rest =>
        if sepChars.contains sep then
          let d2 := rest.takeWhile Char.isDigit
          if d2.isEmpty then none else some (digitsToNat d1, digitsToNat d2)
        else none

/-- Leftmost match of the year-range regex: `re.search` tries every start
position from the left; greedy `\d+` before a non-digit separator always
takes the whole digit run, so this scanner is exact. -/
def findRange : List Char → Option (Nat × Nat)
  | [] => none
  | c :: rest =>
      match tryRangeAt (c :: rest) with
      | some r => some r
      | none => findRange rest

/-- `re.search(r'(\d+)[-â€“](\d+)', s)` with both groups read as integers. -/
def parseYearRange (s : String) : Option (Nat × Nat) := findRange s.data

/-! ## Sub-scorers (`matcher.py`, class `JobMatcher`) -/

/-- One experience entry as produced by `ResumeParser.extract_experience`. -/
structure ExpEntry where
  title : String
  company : String
  duration : Option String
deriving DecidableEq

/-- The exact-match component of `calculate_skill_match` (lines 47-55):
`len(set(resume_lower) & set(job_lower)) / len(job_skills_lower)` — the
number of distinct lowercased skills common to both lists, divided by the
length of the lowercased job-skill list. -/
def exact_skill_score (resume_skills job_skills : List String) : Rat :=
  let resume_skills_lower := resume_skills.map lowerStr
  let job_skills_lower := job_skills.map lowerStr
  let exact_matches := (job_skills_lower.dedup.filter
    (fun s => resume_skills_lower.contains s)).length
  (exact_matches : Rat) / (job_skills_lower.length : Rat)

/-- `JobMatcher.calculate_skill_match` (lines 29-70).  The TF-IDF call is
external; `tfidf` is `some t` when the vectorizer returned cosine similarity
`t` and `none` when it raised (the `except` branch falls back to the exact
score). -/
def calculate_skill_match (resume_skills job_skills : List String)
    (tfidf : Option Rat) : Rat :=
  if resume_skills = [] ∨ job_skills = [] then 0
  else
    let exact_match_score := exact_skill_score resume_skills job_skills
    let tfidf_score := tfidf.getD exact_match_score
    min (exact_match_score * (7/10) + tfidf_score * (3/10)) 1

/-- `JobMatcher.calculate_experience_match` (lines 104-152). -/
def calculate_experience_match (resume_experience : List ExpEntry)
    (required_experience : String) : Rat :=
  if resume_experience = [] then 0
  else
    let resume_years := resume_experience.length
    if required_experience = "" then 1
    else
      match parseYearRange required_experience with
      | some (min_years, max_years) =>
          if min_years ≤ resume_years ∧ resume_years ≤ max_years then 1
          else if resume_years < min_years then
            max 0 ((resume_years : Rat) / (min_years : Rat))
          else 9/10
      | none =>
          let req_lower := lowerStr required_experience
          if strContains req_lower "entry" || strContains req_lower "junior" then
            if resume_years ≤ 2 then 1 else 7/10
          else if strContains req_lower "senior" then
            if 5 ≤ resume_years then 1 else 1/2
          else if strContains req_lower "mid" then
            if 2 ≤ resume_years ∧ resume_years ≤ 5 then 1 else 3/5
          else 1/2

/-- Python truthiness of an optional string: `None` and `""` are falsy. -/
def strFalsy : Option String → Bool
  | none => true
  | some s => s == ""

/-- `JobMatcher.calculate_location_match` (lines 154-187). -/
def calculate_location_match (user_location job_location : Option String) : Rat :=
  if strFalsy user_location || strFalsy job_location then 1/2
  else
    let user_loc_lower := lowerStr (user_location.getD "")
    let job_loc_lower := lowerStr (job_location.getD "")
    if strContains job_loc_lower "remote" then 1
    else if user_loc_lower = job_loc_lower then 1
    else if strContains job_loc_lower user_loc_lower
            || strContains user_loc_lower job_loc_lower then 4/5
    else 0

/-- Python truthiness of an optional integer: `None` and `0` are falsy. -/
def intFalsy : Option Int → Bool
  | none => true
  | some v => v == 0

/-- Line 214 of `matcher.py`: `overlap_start = max(user_min_salary,
job_min_salary or 0)` — an absent (or zero) job minimum contributes `0`. -/
def salary_overlap_start (user_min : Int) (job_min_salary : Option Int) : Int :=
  max user_min (job_min_salary.getD 0)

/-- `JobMatcher.calculate_salary_match` (lines 189-226).  The comparison
`user_max_salary >= job_min_salary` on line 212 is reached when the user
minimum, user maximum, and job maximum are all truthy and
`user_min_salary <= job_max_salary`; if `job_min_salary` is `None` there,
Python raises `TypeError` — modelled as `Except.error ()`. -/
def calculate_salary_match (user_min_salary user_max_salary
    job_min_salary job_max_salary : Option Int) : Except Unit Rat :=
  if intFalsy user_min_salary || intFalsy job_max_salary then .ok (1/2)
  else
    let umin := user_min_salary.getD 0
    let jmax := job_max_salary.getD 0
    let overlapTest : Except Unit Bool :=
      if umin ≤ jmax then
        if intFalsy user_max_salary then .ok true
        else
          match job_min_salary with
          | none => .error ()
          | some jmin => .ok (user_max_salary.getD 0 ≥ jmin)
      else .ok false
    match overlapTest with
    | .error e => .error e
    | .ok overlaps =>
        let fallback : Rat :=
          if umin > jmax then
            max 0 (1/2 - min (((umin : Rat) - (jmax : Rat)) / (umin : Rat)) (1/2))
          else 3/10
        if overlaps then
          let overlap_start := salary_overlap_start umin job_min_salary
          let overlap_end : Int :=
            if intFalsy user_max_salary then jmax
            else min (user_max_salary.getD 0) jmax
          if overlap_end ≥ overlap_start then .ok 1 else .ok fallback
        else .ok fallback

/-! ## Score combiner (`matcher.py`, `calculate_match_score` lines 271-298) -/

/-- Python `round(x, 2)` at the level of exact decimal values: halves round
to the even hundredth (banker's rounding). -/
def roundHalfEven (q : Rat) : Int :=
  let n := Int.floor q
  let frac := q - (n : Rat)
  if frac < 1/2 then n
  else if (1/2 : Rat) < frac then n + 1
  else if n % 2 = 0 then n else n + 1

/-- `round(x, 2)`. -/
def round2 (x : Rat) : Rat := (roundHalfEven (x * 100) : Rat) / 100

/-- The five fixed combiner weights of `calculate_match_score`. -/
def weight_skill : Rat := 1/2
def weight_semantic : Rat := 1/5
def weight_experience : Rat := 1/10
def weight_location : Rat := 1/10
def weight_salary : Rat := 1/10

/-- The dictionary returned by `calculate_match_score`: the final score and
the per-dimension breakdown. -/
structure MatchResult where
  match_score : Rat
  skill_match : Rat
  semantic_similarity : Rat
  experience_match : Rat
  location_match : Rat
  salary_match : Rat
deriving DecidableEq

/-- The combining stage of `JobMatcher.calculate_match_score` (lines
280-298), parameterized by the five sub-scores it has just computed. -/
def calculate_match_score (skill_score semantic_score experience_score
    location_score salary_score : Rat) : MatchResult :=
  let final_score :=
    (skill_score * weight_skill + semantic_score * weight_semantic +
     experience_score * weight_experience + location_score * weight_location +
     salary_score * weight_salary) * 100
  { match_score := round2 final_score
    skill_match := round2 (skill_score * 100)
    semantic_similarity := round2 (semantic_score * 100)
    experience_match := round2 (experience_score * 100)
    location_match := round2 (location_score * 100)
    salary_match := round2 (salary_score * 100) }

/-! ## Resume parser (`resume_parser.py`, class `ResumeParser`) -/

/-- One extracted skill record (`{"skill_name": ..., "skill_category": ...}`). -/
structure Skill where
  skill_name : String
  skill_category : String
deriving DecidableEq

/-- `ResumeParser._load_skill_database` (lines 32-63), in dictionary
insertion order. -/
def skill_database : List (String × List String) :=
  [ ("Programming Languages",
      ["python", "java", "javascript", "typescript", "c++", "c#", "ruby", "go",
       "rust", "php", "swift", "kotlin", "scala", "r", "matlab", "perl"]),
    ("Web Frameworks",
      ["react", "angular", "vue", "django", "flask", "fastapi", "express",
       "spring", "laravel", "rails", "nextjs", "nuxt", "svelte"]),
    ("Databases",
      ["postgresql", "mysql", "mongodb", "redis", "elasticsearch", "cassandra",
       "dynamodb", "oracle", "sql server", "sqlite", "neo4j"]),
    ("Cloud Platforms",
      ["aws", "azure", "gcp", "google cloud", "heroku", "digitalocean",
       "vercel", "netlify", "cloudflare"]),
    ("DevOps Tools",
      ["docker", "kubernetes", "jenkins", "gitlab ci", "github actions",
       "terraform", "ansible", "circleci", "travis ci"]),
    ("Data Science",
      ["machine learning", "deep learning", "nlp", "computer vision",
       "tensorflow", "pytorch", "scikit-learn", "pandas", "numpy", "keras"]),
    ("Other Tools",
      ["git", "linux", "bash", "rest api", "graphql", "microservices",
       "agile", "scrum", "jira", "confluence"]) ]

/-- The matching loop of `extract_skills` (lines 105-116): for each category
in taxonomy order and each skill in list order, record the skill (title-cased,
with its category) when the word-boundary pattern occurs in the lowercased
text. -/
def found_skills (text_lower : String) : List Skill :=
  skill_database.foldr
    (fun cg acc =>
      ((cg.2.filter (fun sk => containsWord text_lower sk)).map
        (fun sk => { skill_name := pyTitle sk, skill_category := cg.1 })) ++ acc)
    []

/-- The dedup loop of `extract_skills` (lines 118-125): keep a record iff its
lowercased name has not been seen yet. -/
def dedupSkills (seen : List String) : List Skill → List Skill
  | [] => []
  | s :: rest =>
      if seen.contains (lowerStr s.skill_name) then dedupSkills seen rest
      else s :: dedupSkills (lowerStr s.skill_name :: seen) rest

/-- `ResumeParser.extract_skills` (lines 95-127). -/
def extract_skills (text : String) : List Skill :=
  dedupSkills [] (found_skills (lowerStr text))

/-! ## Text extraction (`resume_parser.py`, `extract_text_from_pdf` lines 65-93)

The two PDF libraries are external; a run of pdfplumber is modelled by the
page texts it yielded before finishing or raising (`page.extract_text()` may
return `None`) plus whether it raised, and a run of PyPDF2 by either its page
texts or the fact that it raised. -/

/-- The outcome of the text-extraction stage: the returned text or the raised
`ValueError`, plus whether the fallback extractor was ever entered. -/
structure ExtractOutcome where
  result : Except Unit String
  secondaryAttempted : Bool

/-- Lines 80-83: `if page_text: text += page_text + "\n"` — pages whose
extracted text is `None` or empty contribute nothing. -/
def appendPage (acc : String) (page_text : Option String) : String :=
  match page_text with
  | none => acc
  | some t => if t = "" then acc else acc ++ t ++ "\n"

/-- `ResumeParser.extract_text_from_pdf` (lines 65-93).  `primary_pages` are
the page texts pdfplumber delivered before `primary_raises` tells whether it
then raised; the fallback runs only in the `except` branch, appending to the
text already accumulated, and the stage raises only when PyPDF2 also raised. -/
def extract_text_from_pdf (primary_pages : List (Option String))
    (primary_raises : Bool) (secondary : Except Unit (List String)) :
    ExtractOutcome :=
  let text := primary_pages.foldl appendPage ""
  if primary_raises then
    match secondary with
    | .ok pages =>
        { result := .ok (pyStrip (pages.foldl (fun acc t => acc ++ t ++ "\n") text))
          secondaryAttempted := true }
    | .error _ => { result := .error (), secondaryAttempted := true }
  else
    { result := .ok (pyStrip text), secondaryAttempted := false }

/-! ## Shared helper facts -/

/-- Is an `Except` value an error? -/
def isErr {α β : Type} : Except α β → Bool
  | .error _ => true
  | .ok _ => false

/-- A concrete experience entry used in the closed evaluations below. -/
def engEntry : ExpEntry := { title := "Software Engineer", company := "Acme", duration := none }

/-- The required-experience string "2–5 years" written with a real en-dash
(U+2013), as the spec says the scorer accepts. -/
def endashReq : String := "2" ++ String.singleton (Char.ofNat 0x2013) ++ "5 years"

/-! ## Claims -/

/-- C1: for every tuple of the five sub-scores, the combiner returns a final
score equal to `round((skill*0.5 + semantic*0.2 + experience*0.1 +
location*0.1 + salary*0.1) * 100, 2)`; the five weights sum to exactly 1;
and the breakdown maps each dimension to its sub-score scaled by 100 and
rounded to 2 decimals. -/
theorem calculate_match_score_spec (sk se ex lo sa : Rat) :
    (calculate_match_score sk se ex lo sa).match_score
      = round2 ((sk * (1/2) + se * (1/5) + ex * (1/10) + lo * (1/10) + sa * (1/10)) * 100)
    ∧ weight_skill + weight_semantic + weight_experience + weight_location + weight_salary = 1
    ∧ (calculate_match_score sk se ex lo sa).skill_match = round2 (sk * 100)
    ∧ (calculate_match_score sk se ex lo sa).semantic_similarity = round2 (se * 100)
    ∧ (calculate_match_score sk se ex lo sa).experience_match = round2 (ex * 100)
    ∧ (calculate_match_score sk se ex lo sa).location_match = round2 (lo * 100)
    ∧ (calculate_match_score sk se ex lo sa).salary_match = round2 (sa * 100) := by
  refine ⟨rfl, ?_, rfl, rfl, rfl, rfl, rfl⟩
  norm_num [weight_skill, weight_semantic, weight_experience, weight_location, weight_salary]

/-- C2 (failing evaluation): the salary sub-scorer does not return a value in
[0,1] on every input — with candidate minimum 50000, candidate maximum 60000,
job minimum absent and job maximum 70000 it reaches
`user_max_salary >= job_min_salary` with `job_min_salary = None` and raises
`TypeError` instead of returning. -/
theorem salary_subscorer_raises_on_absent_job_min :
    calculate_salary_match (some 50000) (some 60000) none (some 70000) = .error () := rfl

/-- C6 (failing evaluation): the en-dash range "2–5 years" (U+2013) is NOT
parsed — the mangled character class on line 130 accepts `-`, `â`, `€`, `“`
but not the en-dash — so three experience entries score the keyword-fallback
default 1/2 instead of the in-range 1 that the same range with an ASCII
hyphen yields (and that a mojibake separator such as `â` also yields). -/
theorem experience_endash_not_parsed :
    parseYearRange endashReq = none
    ∧ calculate_experience_match [engEntry, engEntry, engEntry] endashReq = 1/2
    ∧ calculate_experience_match [engEntry, engEntry, engEntry] "2-5 years" = 1
    ∧ parseYearRange ("2" ++ String.singleton (Char.ofNat 0xE2) ++ "5 years") = some (2, 5) :=
  ⟨by decide, rfl, rfl, by decide⟩

/-- C7 (failing evaluation): with candidate minimum 100000, candidate maximum
150000, job minimum absent and job maximum 200000, the claim's overlap branch
prescribes a return of 1.0, but line 212 compares `150000 >= None` and raises
`TypeError`, so the sub-scorer returns nothing at all. -/
theorem salary_match_typeerror_on_overlap_check :
    calculate_salary_match (some 100000) (some 150000) none (some 200000) = .error () := rfl

/-- C10: a present-but-zero candidate minimum or job maximum salary makes the
sub-scorer return the neutral 1/2, exactly as when the field is absent; and a
present-but-zero job minimum contributes to the overlap-start computation
(`max(user_min, job_min or 0)`, line 214) exactly as an absent one. -/
theorem salary_zero_treated_as_absent :
    (∀ umax jmin jmax, calculate_salary_match (some 0) umax jmin jmax = .ok (1/2)
        ∧ calculate_salary_match (some 0) umax jmin jmax
            = calculate_salary_match none umax jmin jmax)
    ∧ (∀ umin umax jmin, calculate_salary_match umin umax jmin (some 0) = .ok (1/2)
        ∧ calculate_salary_match umin umax jmin (some 0)
            = calculate_salary_match umin umax jmin none)
    ∧ (∀ umin : Int, salary_overlap_start umin (some 0) = salary_overlap_start umin none) := by
  refine ⟨fun umax jmin jmax => ⟨?_, ?_⟩, fun umin umax jmin => ⟨?_, ?_⟩, fun umin => rfl⟩ <;>
    simp [calculate_salary_match, intFalsy]

/-- C3 (counterexample): a pdfplumber run that completes without raising but
yields no usable text (its only page extracts `None`) does NOT trigger the
PyPDF2 fallback — the stage returns the empty string even though the fallback
would have produced "hello". -/
theorem extract_text_no_fallback_on_empty_primary :
    (extract_text_from_pdf [none] false (.ok ["hello"])).secondaryAttempted = false
    ∧ (extract_text_from_pdf [none] false (.ok ["hello"])).result = .ok "" := ⟨rfl, rfl⟩

/-- C3 (amended): the secondary extractor is attempted exactly when the
primary raises (regardless of how much text the primary produced), and the
stage fails with an extraction error exactly when the primary raised and the
secondary also raised. -/
theorem extract_text_fallback_spec (pages : List (Option String)) (praised : Bool)
    (sec : Except Unit (List String)) :
    (extract_text_from_pdf pages praised sec).secondaryAttempted = praised
    ∧ isErr (extract_text_from_pdf pages praised sec).result = (praised && isErr sec) := by
  cases praised <;> cases sec <;> simp [extract_text_from_pdf, isErr]

/-- C4: if either skill list is empty the skill sub-scorer returns 0;
otherwise it returns `min(1, 0.7*exact + 0.3*secondary)` where `exact` is the
distinct lowercased intersection count over the lowercased job-skill list
length, and `secondary` is the vectorizer's cosine score, replaced by `exact`
whenever vectorization raises. -/
theorem skill_match_spec (R J : List String) (t : Rat) :
    (R = [] ∨ J = [] → ∀ tf : Option Rat, calculate_skill_match R J tf = 0)
    ∧ (R ≠ [] → J ≠ [] →
        calculate_skill_match R J (some t)
          = min 1 ((7/10) * exact_skill_score R J + (3/10) * t))
    ∧ (R ≠ [] → J ≠ [] →
        calculate_skill_match R J none
          = min 1 ((7/10) * exact_skill_score R J + (3/10) * exact_skill_score R J)) := by
  refine ⟨fun h tf => ?_, fun hR hJ => ?_, fun hR hJ => ?_⟩
  · rcases h with h | h <;> simp [calculate_skill_match, h]
  · have h : calculate_skill_match R J (some t)
        = min (exact_skill_score R J * (7/10) + t * (3/10)) 1 := by
      simp [calculate_skill_match, hR, hJ]
    rw [h, min_comm]
    congr 1
    ring
  · have h : calculate_skill_match R J none
        = min (exact_skill_score R J * (7/10) + exact_skill_score R J * (3/10)) 1 := by
      simp [calculate_skill_match, hR, hJ]
    rw [h, min_comm]
    congr 1
    ring

/-- Witness for C4: a resume with skill "python" against job skills
"python"/"java" and a raising vectorizer scores
`min(1, 0.7*(1/2) + 0.3*(1/2)) = 1/2`. -/
theorem skill_match_spec_witness :
    calculate_skill_match ["python"] ["python", "java"] none = 1/2 := by
  have h := (skill_match_spec ["python"] ["python", "java"] 0).2.2
    (by decide) (by decide)
  have he : exact_skill_score ["python"] ["python", "java"] = 1/2 := by
    have h1 : (((["python", "java"].map lowerStr).dedup).filter
        (fun s => (["python"].map lowerStr).contains s)).length = 1 := by decide
    have h2 : ((["python", "java"].map lowerStr).length) = 2 := by decide
    simp only [exact_skill_score]
    rw [h1, h2]
    norm_num
  rw [h, he]
  norm_num [min_def]

/-- C5: for the experience sub-scorer — an empty experience list scores 0
regardless of the requirement; a non-empty list with an empty requirement
scores 1; when the requirement parses as a numeric range `min`–`max`, the
scorer returns 1 in range, `max(0, years/min)` under range, and 9/10 over
range; when no numeric range parses, the keyword rules apply
(entry/junior, senior, mid, default 1/2). -/
theorem experience_match_spec (exp : List ExpEntry) (req : String) :
    (exp = [] → calculate_experience_match exp req = 0)
    ∧ (exp ≠ [] → req = "" → calculate_experience_match exp req = 1)
    ∧ (exp ≠ [] → req ≠ "" → ∀ mn mx, parseYearRange req = some (mn, mx) →
        calculate_experience_match exp req =
          if mn ≤ exp.length ∧ exp.length ≤ mx then 1
          else if exp.length < mn then max 0 ((exp.length : Rat) / (mn : Rat))
          else 9/10)
    ∧ (exp ≠ [] → req ≠ "" → parseYearRange req = none →
        calculate_experience_match exp req =
          if strContains (lowerStr req) "entry" || strContains (lowerStr req) "junior" then
            (if exp.length ≤ 2 then 1 else 7/10)
          else if strContains (lowerStr req) "senior" then
            (if 5 ≤ exp.length then 1 else 1/2)
          else if strContains (lowerStr req) "mid" then
            (if 2 ≤ exp.length ∧ exp.length ≤ 5 then 1 else 3/5)
          else 1/2) := by
  refine ⟨fun h => by simp [calculate_experience_match, h],
    fun h1 h2 => by simp [calculate_experience_match, h1, h2],
    fun h1 h2 mn mx hp => ?_, fun h1 h2 hp => ?_⟩
  · simp [calculate_experience_match, h1, h2, hp]
  · simp [calculate_experience_match, h1, h2, hp]

/-- Witness for C5: three experience entries against "2-5 years" score 1. -/
theorem experience_match_spec_witness :
    calculate_experience_match [engEntry, engEntry, engEntry] "2-5 years" = 1 := by
  have h := (experience_match_spec [engEntry, engEntry, engEntry] "2-5 years").2.2.1
    (by decide) (by decide) 2 5 (by decide)
  rw [h]
  norm_num

/-- C8: the location sub-scorer returns 1/2 when either location is absent
(Python-falsy: `None` or empty), 1 when the job location contains "remote"
case-insensitively, 1 on case-insensitive equality, 4/5 on case-insensitive
substring containment in either direction, and 0 otherwise. -/
theorem location_match_spec (u j : Option String) :
    (strFalsy u = true ∨ strFalsy j = true → calculate_location_match u j = 1/2)
    ∧ (strFalsy u = false → strFalsy j = false →
        strContains (lowerStr (j.getD "")) "remote" = true →
        calculate_location_match u j = 1)
    ∧ (strFalsy u = false → strFalsy j = false →
        strContains (lowerStr (j.getD "")) "remote" = false →
        lowerStr (u.getD "") = lowerStr (j.getD "") →
        calculate_location_match u j = 1)
    ∧ (strFalsy u = false → strFalsy j = false →
        strContains (lowerStr (j.getD "")) "remote" = false →
        lowerStr (u.getD "") ≠ lowerStr (j.getD "") →
        (strContains (lowerStr (j.getD "")) (lowerStr (u.getD ""))
          || strContains (lowerStr (u.getD "")) (lowerStr (j.getD ""))) = true →
        calculate_location_match u j = 4/5)
    ∧ (strFalsy u = false → strFalsy j = false →
        strContains (lowerStr (j.getD "")) "remote" = false →
        lowerStr (u.getD "") ≠ lowerStr (j.getD "") →
        (strContains (lowerStr (j.getD "")) (lowerStr (u.getD ""))
          || strContains (lowerStr (u.getD "")) (lowerStr (j.getD ""))) = false →
        calculate_location_match u j = 0) := by
  refine ⟨fun h => ?_, fun h1 h2 h3 => ?_, fun h1 h2 h3 h4 => ?_,
    fun h1 h2 h3 h4 h5 => ?_, fun h1 h2 h3 h4 h5 => ?_⟩
  · rcases h with h | h <;> simp [calculate_location_match, h]
  · simp [calculate_location_match, h1, h2, h3]
  · simp [calculate_location_match, h1, h2, h3, h4]
  · simp [calculate_location_match, h1, h2, h3, h4, h5]
  · simp [calculate_location_match, h1, h2, h3, h4, h5]

/-- Witness for C8: any candidate location against job location "Remote"
scores 1. -/
theorem location_match_spec_witness :
    calculate_location_match (some "NYC") (some "Remote") = 1 :=
  (location_match_spec (some "NYC") (some "Remote")).2.1
    (by decide) (by decide) (by decide)

/-! ## Dedup lemmas for skill extraction (C9) -/

/-- Every record surviving `dedupSkills seen l` has a lowercased name outside
`seen`. -/
theorem dedupSkills_contains_false (l : List Skill) : ∀ (seen : List String) (s : Skill),
    s ∈ dedupSkills seen l → seen.contains (lowerStr s.skill_name) = false := by
  induction l with
  | nil => intro seen s h; simp [dedupSkills] at h
  | cons a rest ih =>
    intro seen s h
    simp only [dedupSkills] at h
    by_cases hc : seen.contains (lowerStr a.skill_name) = true
    · rw [if_pos hc] at h
      exact ih seen s h
    · rw [if_neg hc] at h
      rcases List.mem_cons.mp h with rfl | h2
      · simpa using hc
      · have h3 := ih _ s h2
        simp only [List.contains_cons, Bool.or_eq_false_iff] at h3
        exact h3.2

/-- `dedupSkills` yields a list whose lowercased names are pairwise
distinct. -/
theorem dedupSkills_pairwise (l : List Skill) : ∀ seen : List String,
    List.Pairwise (fun a b => lowerStr a.skill_name ≠ lowerStr b.skill_name)
      (dedupSkills seen l) := by
  induction l with
  | nil => intro seen; simp [dedupSkills]
  | cons a rest ih =>
    intro seen
    simp only [dedupSkills]
    by_cases hc : seen.contains (lowerStr a.skill_name) = true
    · rw [if_pos hc]
      exact ih seen
    · rw [if_neg hc]
      refine List.Pairwise.cons (fun b hb => ?_) (ih _)
      have h3 := dedupSkills_contains_false rest _ b hb
      simp only [List.contains_cons, Bool.or_eq_false_iff, beq_eq_false_iff_ne] at h3
      exact fun he => h3.1 he.symm

/-- `dedupSkills` keeps the first record bearing each lowercased name: lookup
by lowercased name is unchanged. -/
theorem dedupSkills_find (l : List Skill) : ∀ (seen : List String) (k : String),
    seen.contains k = false →
    (dedupSkills seen l).find? (fun s => lowerStr s.skill_name == k)
      = l.find? (fun s => lowerStr s.skill_name == k) := by
  induction l with
  | nil => intro seen k _; rfl
  | cons a rest ih =>
    intro seen k hk
    simp only [dedupSkills]
    cases hpa : (lowerStr a.skill_name == k) with
    | true =>
      have hkey : lowerStr a.skill_name = k := eq_of_beq hpa
      have hc : seen.contains (lowerStr a.skill_name) = false := by rw [hkey]; exact hk
      rw [if_neg (by simpa using hc)]
      simp [List.find?_cons, hpa]
    | false =>
      by_cases hc : seen.contains (lowerStr a.skill_name) = true
      · rw [if_pos hc, ih seen k hk]
        simp [List.find?_cons, hpa]
      · rw [if_neg hc]
        simp only [List.find?_cons, hpa]
        have hkk : (k == lowerStr a.skill_name) = false :=
          beq_eq_false_iff_ne.mpr (fun he => (beq_eq_false_iff_ne.mp hpa) he.symm)
        refine ih _ k ?_
        simp only [List.contains_cons, Bool.or_eq_false_iff]
        constructor
        · simpa using hkk
        · simpa using hk

/-- C9: the extracted skill list never holds two records with the same
case-insensitive name; lookup by lowercased name agrees with the raw match
list, so the first occurrence (and its category) wins; and a text containing
both "Python" and "python" yields exactly one record, named "Python". -/
theorem extract_skills_dedup_spec (text : String) :
    List.Pairwise (fun a b => lowerStr a.skill_name ≠ lowerStr b.skill_name)
      (extract_skills text)
    ∧ (∀ k : String, (extract_skills text).find? (fun s => lowerStr s.skill_name == k)
        = (found_skills (lowerStr text)).find? (fun s => lowerStr s.skill_name == k))
    ∧ extract_skills "Experienced in Python and python development"
        = [{ skill_name := "Python", skill_category := "Programming Languages" }] := by
  refine ⟨dedupSkills_pairwise _ _, fun k => dedupSkills_find _ _ _ rfl, ?_⟩
  decide

/-! ## Supporting range facts

The spec's invariant "every sub-score lies in [0,1]" holds on every path
that returns at all: the experience and location scorers are total and
bounded, the skill scorer is bounded whenever the external vectorizer's
cosine score is nonnegative (TF-IDF vectors are nonnegative, so their cosine
is), and the salary scorer's only way to avoid producing a value in its
defined branches is the `TypeError` characterized exactly below. -/

/-- The exact skill score is a quotient of nonnegative counts. -/
theorem exact_skill_score_nonneg (R J : List String) : 0 ≤ exact_skill_score R J := by
  simp only [exact_skill_score]
  positivity

/-- The location sub-scorer always lands in [0,1]. -/
theorem calculate_location_match_bounds (u j : Option String) :
    calculate_location_match u j ∈ Set.Icc (0 : Rat) 1 := by
  simp only [calculate_location_match]
  split_ifs <;> norm_num [Set.mem_Icc]

/-- The skill sub-scorer lands in [0,1] whenever the vectorizer's cosine
score is nonnegative (or the vectorizer raised). -/
theorem calculate_skill_match_bounds (R J : List String) (tfidf : Option Rat)
    (ht : ∀ t, tfidf = some t → 0 ≤ t) :
    calculate_skill_match R J tfidf ∈ Set.Icc (0 : Rat) 1 := by
  simp only [calculate_skill_match]
  split_ifs with h
  · norm_num [Set.mem_Icc]
  · have he := exact_skill_score_nonneg R J
    have ht2 : 0 ≤ (tfidf.getD (exact_skill_score R J)) := by
      cases tfidf with
      | none => simpa using he
      | some t => simpa using ht t rfl
    rw [Set.mem_Icc]
    constructor
    · refine le_min (by positivity) (by norm_num)
    · exact min_le_right _ 1

/-- The experience sub-scorer always lands in [0,1]. -/
theorem calculate_experience_match_bounds (exp : List ExpEntry) (req : String) :
    calculate_experience_match exp req ∈ Set.Icc (0 : Rat) 1 := by
  simp only [calculate_experience_match]
  split
  · norm_num [Set.mem_Icc]
  · split
    · norm_num [Set.mem_Icc]
    · split
      · rename_i mn mx heq
        split_ifs with ha hb
        · norm_num [Set.mem_Icc]
        · rw [Set.mem_Icc]
          constructor
          · exact le_max_left 0 _
          · refine max_le (by norm_num) ?_
            have hmn : 0 < mn := Nat.lt_of_le_of_lt (Nat.zero_le _) hb
            rw [div_le_one (by exact_mod_cast hmn)]
            exact_mod_cast Nat.le_of_lt hb
        · norm_num [Set.mem_Icc]
      · split_ifs <;> norm_num [Set.mem_Icc]

/-- The salary sub-scorer raises (rather than returning a score) exactly when
the candidate minimum, job maximum and candidate maximum are all truthy, the
job minimum is `None`, and the candidate minimum does not exceed the job
maximum — i.e. precisely when line 212 compares an `int` against `None`. -/
theorem calculate_salary_match_error_iff (umin umax jmin jmax : Option Int) :
    calculate_salary_match umin umax jmin jmax = .error ()
      ↔ intFalsy umin = false ∧ intFalsy jmax = false ∧ intFalsy umax = false
        ∧ jmin = none ∧ umin.getD 0 ≤ jmax.getD 0 := by
  simp only [calculate_salary_match]
  by_cases h1 : intFalsy umin = true
  · simp [h1]
  · by_cases h4 : intFalsy jmax = true
    · simp [h4]
    · by_cases h2 : umin.getD 0 ≤ jmax.getD 0
      · by_cases h3 : intFalsy umax = true
        · simp [h1, h4, h2, h3]
          split_ifs <;> simp
        · cases jmin with
          | none => simp [h1, h4, h2, h3]
          | some v =>
            simp [h1, h4, h2, h3]
            split_ifs <;> simp
      · simp [h1, h4, h2]

end JobSync
